import Mathlib

/-!
Shallow embedding of `godcinfo` (main.go): a read-only vSphere storage-topology
reporting tool. The program enumerates, per compute cluster, the storage pods
("datastore clusters") and the cluster's reachable datastores, partitions those
datastores into pod buckets versus standalone, and renders either a text stream
or a single JSON document.

Machine integers (`int64` capacity/free-space) are modelled as `Int`; the
byte→GiB conversion (a `float64` division by `1024*1024*1024` in Go) is
modelled as exact division in `ℚ`, which captures the binary-versus-decimal
semantics the spec speaks about. Fallible SDK calls are modelled as `Except`
values recorded in an environment snapshot; stdout is modelled as a list of
output items where the two floating-point numbers of a datastore line are kept
symbolic rather than rendered with `%.2f`.
-/

namespace GodcInfo

/-- Reference value plus the retrieved properties of a `mo.Datastore`
(`name`, `summary.capacity`, `summary.freeSpace`), as fetched at
main.go:206. `refValue` models `ds.Reference().Value`. -/
structure moDatastore where
  refValue : String
  name : String
  capacity : Int
  freeSpace : Int
deriving DecidableEq, Repr

/-- A `mo.StoragePod` as retrieved at main.go:178 with properties
`name` and `childEntity` (member reference values, in list order). -/
structure StoragePod where
  name : String
  childEntity : List String
deriving DecidableEq, Repr

/-- `DatastoreInfo` of main.go:34-38: name plus capacity/free space in GB. -/
structure DatastoreInfo where
  name : String
  capacity_gb : ℚ
  free_space_gb : ℚ
deriving DecidableEq, Repr

/-- `DatastoreClusterInfo` of main.go:41-44. -/
structure DatastoreClusterInfo where
  name : String
  datastores : List DatastoreInfo
deriving DecidableEq, Repr

/-- `ClusterInfo` of main.go:47-51. -/
structure ClusterInfo where
  name : String
  datastoreClusters : List DatastoreClusterInfo
  standaloneDatastores : List DatastoreInfo
deriving DecidableEq, Repr

/-- `InfrastructureInfo` of main.go:54-57. -/
structure InfrastructureInfo where
  datacenter : String
  clusters : List ClusterInfo
deriving DecidableEq, Repr

/-- The byte→GB conversion of main.go:241-242 and 292-293:
`float64(bytes) / (1024 * 1024 * 1024)`, modelled exactly over `ℚ`. -/
def bytesToGB (b : Int) : ℚ := (b : ℚ) / (1024 * 1024 * 1024)

/-- The `DatastoreInfo` literal built at main.go:245-249 / 296-300. -/
def dsToInfo (ds : moDatastore) : DatastoreInfo :=
  ⟨ds.name, bytesToGB ds.capacity, bytesToGB ds.freeSpace⟩

/-- The `datastoreMap` lookup of main.go:199-216: the map is populated by a
forward scan with later entries overwriting earlier ones, so a lookup returns
the last list element carrying the requested reference value. -/
def lookupDs (dss : List moDatastore) (r : String) : Option moDatastore :=
  dss.reverse.find? (fun ds => ds.refValue == r)

/-- The bucket built for one storage pod at main.go:236-255: for each member
reference in `childEntity` order, if the reference is in the cluster's
datastore map, emit its summary. -/
def podBucket (dss : List moDatastore) (pod : StoragePod) : List DatastoreInfo :=
  pod.childEntity.filterMap (fun r => (lookupDs dss r).map dsToInfo)

/-- The `DatastoreClusters` list built at main.go:224-266 in JSON mode: one
entry per storage pod, kept only when its bucket is non-empty
(main.go:263-265). -/
def datastoreClusters (dss : List moDatastore) (pods : List StoragePod) :
    List DatastoreClusterInfo :=
  pods.filterMap (fun pod =>
    let b := podBucket dss pod
    if b.length > 0 then some ⟨pod.name, b⟩ else none)

/-- `belongsToStoragePod` of main.go:277-288: whether any pod's member list
contains the reference value. -/
def belongsToStoragePod (pods : List StoragePod) (r : String) : Bool :=
  pods.any (fun pod => pod.childEntity.any (fun cr => cr == r))

/-- The `StandaloneDatastores` list built at main.go:275-306: the retrieved
datastores, in retrieval order, whose reference belongs to no storage pod. -/
def standaloneDatastores (pods : List StoragePod) (dss : List moDatastore) :
    List DatastoreInfo :=
  (dss.filter (fun ds => !(belongsToStoragePod pods ds.refValue))).map dsToInfo

/-- Specification-side view: the datastores that act as the source of some
grouped emission — for each pod, the member references resolved through the
datastore map. `podBucket` is exactly this composed with `dsToInfo`. -/
def groupedSources (dss : List moDatastore) (pods : List StoragePod) :
    List moDatastore :=
  (pods.map (fun pod => pod.childEntity.filterMap (lookupDs dss))).flatten

/-- Specification-side view: the datastores that source the standalone list. -/
def standaloneSources (pods : List StoragePod) (dss : List moDatastore) :
    List moDatastore :=
  dss.filter (fun ds => !(belongsToStoragePod pods ds.refValue))

/-- All summaries emitted under storage-pool groups for one cluster pass. -/
def groupedSummaries (dss : List moDatastore) (pods : List StoragePod) :
    List DatastoreInfo :=
  ((datastoreClusters dss pods).map (·.datastores)).flatten

theorem podBucket_eq_map (dss : List moDatastore) (pod : StoragePod) :
    podBucket dss pod = (pod.childEntity.filterMap (lookupDs dss)).map dsToInfo := by
  simp [podBucket, List.map_filterMap]

theorem standalone_eq_map (pods : List StoragePod) (dss : List moDatastore) :
    standaloneDatastores pods dss = (standaloneSources pods dss).map dsToInfo := rfl

/-- Dropping the empty buckets does not change the joined grouped summaries. -/
theorem groupedSummaries_eq_join (dss : List moDatastore) (pods : List StoragePod) :
    groupedSummaries dss pods = (pods.map (podBucket dss)).flatten := by
  induction pods with
  | nil => rfl
  | cons pod rest ih =>
      simp only [groupedSummaries, datastoreClusters, List.filterMap_cons] at *
      by_cases h : (podBucket dss pod).length > 0
      · simp [h, ih]
      · simp only [h, if_false, List.map_cons, List.flatten_cons, ih]
        rw [List.length_eq_zero.mp (Nat.eq_zero_of_not_pos h)]
        simp

theorem lookupDs_some (dss : List moDatastore) (r : String) (d : moDatastore)
    (h : lookupDs dss r = some d) : d ∈ dss ∧ d.refValue = r := by
  unfold lookupDs at h
  have hm := List.mem_of_find?_eq_some h
  have hp := List.find?_some h
  refine ⟨List.mem_reverse.mp hm, ?_⟩
  simpa using hp

theorem lookupDs_self (dss : List moDatastore) (d : moDatastore)
    (hnd : (dss.map (·.refValue)).Nodup) (hd : d ∈ dss) :
    lookupDs dss d.refValue = some d := by
  have hex : ∃ x ∈ dss.reverse, (fun ds => ds.refValue == d.refValue) x = true := by
    exact ⟨d, List.mem_reverse.mpr hd, by simp⟩
  obtain ⟨d', hfind⟩ := Option.isSome_iff_exists.mp (List.find?_isSome.mpr hex)
  obtain ⟨hd', hr'⟩ := lookupDs_some dss d.refValue d' hfind
  have hinj := List.inj_on_of_nodup_map hnd
  have : d' = d := hinj hd' hd hr'
  rw [lookupDs, hfind, this]

theorem belongs_iff (pods : List StoragePod) (r : String) :
    belongsToStoragePod pods r = true ↔
      ∃ pod ∈ pods, r ∈ pod.childEntity := by
  simp [belongsToStoragePod, List.any_eq_true]

theorem mem_groupedSources (dss : List moDatastore) (pods : List StoragePod)
    (d : moDatastore) :
    d ∈ groupedSources dss pods ↔
      ∃ pod ∈ pods, ∃ r ∈ pod.childEntity, lookupDs dss r = some d := by
  simp [groupedSources, List.mem_flatten, List.mem_filterMap]

/-- C1: for every cluster pass, the summaries emitted under the storage-pool
groups together with those emitted as standalone cover exactly the cluster's
retrieved (reachable) datastore list: a reachable datastore whose reference
sits in some pod's member list is emitted under the groups and excluded from
standalone, one in no member list is emitted standalone and never grouped,
and every emitted summary originates from a reachable datastore. -/
theorem c1_partition (pods : List StoragePod) (dss : List moDatastore)
    (hnd : (dss.map (·.refValue)).Nodup) :
    (∀ d ∈ dss,
      (belongsToStoragePod pods d.refValue = true →
        dsToInfo d ∈ groupedSummaries dss pods ∧ d ∉ standaloneSources pods dss) ∧
      (belongsToStoragePod pods d.refValue = false →
        dsToInfo d ∈ standaloneDatastores pods dss ∧ d ∉ groupedSources dss pods)) ∧
    (∀ i ∈ groupedSummaries dss pods, ∃ d ∈ dss, i = dsToInfo d) ∧
    (∀ i ∈ standaloneDatastores pods dss, ∃ d ∈ dss, i = dsToInfo d) := by
  refine ⟨?_, ?_, ?_⟩
  · intro d hd
    constructor
    · intro hb
      obtain ⟨pod, hpod, hr⟩ := (belongs_iff pods d.refValue).mp hb
      constructor
      · rw [groupedSummaries_eq_join]
        refine List.mem_flatten.mpr ⟨podBucket dss pod, List.mem_map_of_mem _ hpod, ?_⟩
        rw [podBucket_eq_map]
        refine List.mem_map_of_mem _ ?_
        exact List.mem_filterMap.mpr ⟨d.refValue, hr, lookupDs_self dss d hnd hd⟩
      · intro hmem
        have := (List.mem_filter.mp hmem).2
        simp [hb] at this
    · intro hb
      constructor
      · rw [standalone_eq_map]
        refine List.mem_map_of_mem _ ?_
        exact List.mem_filter.mpr ⟨hd, by simp [hb]⟩
      · intro hmem
        obtain ⟨pod, hpod, r, hr, hl⟩ := (mem_groupedSources dss pods d).mp hmem
        have hrv := (lookupDs_some dss r d hl).2
        have : belongsToStoragePod pods d.refValue = true :=
          (belongs_iff pods d.refValue).mpr ⟨pod, hpod, hrv ▸ hr⟩
        rw [hb] at this
        exact Bool.false_ne_true this
  · intro i hi
    rw [groupedSummaries_eq_join] at hi
    obtain ⟨l, hl, hil⟩ := List.mem_flatten.mp hi
    obtain ⟨pod, _, rfl⟩ := List.mem_map.mp hl
    rw [podBucket_eq_map] at hil
    obtain ⟨d, hd, rfl⟩ := List.mem_map.mp hil
    obtain ⟨r, _, hlk⟩ := List.mem_filterMap.mp hd
    exact ⟨d, (lookupDs_some dss r d hlk).1, rfl⟩
  · intro i hi
    rw [standalone_eq_map] at hi
    obtain ⟨d, hd, rfl⟩ := List.mem_map.mp hi
    exact ⟨d, (List.mem_filter.mp hd).1, rfl⟩

theorem c1_partition_witness :
    dsToInfo ⟨"ds-1", "A", 2048, 1024⟩ ∈
      groupedSummaries [⟨"ds-1", "A", 2048, 1024⟩, ⟨"ds-2", "B", 4096, 2048⟩]
        [⟨"Pod1", ["ds-1"]⟩] ∧
    dsToInfo ⟨"ds-2", "B", 4096, 2048⟩ ∈
      standaloneDatastores [⟨"Pod1", ["ds-1"]⟩]
        [⟨"ds-1", "A", 2048, 1024⟩, ⟨"ds-2", "B", 4096, 2048⟩] := by
  have h := c1_partition [⟨"Pod1", ["ds-1"]⟩]
    [⟨"ds-1", "A", 2048, 1024⟩, ⟨"ds-2", "B", 4096, 2048⟩] (by decide)
  exact ⟨((h.1 ⟨"ds-1", "A", 2048, 1024⟩ (by decide)).1 (by decide)).1,
         ((h.1 ⟨"ds-2", "B", 4096, 2048⟩ (by decide)).2 (by decide)).1⟩

/-- C5: capacity and free space are converted from bytes to gibibytes by
dividing by 1024³: an input of 1073741824 bytes yields exactly 1 GB, while a
1000-based conversion of the same input would not yield 1. -/
theorem c5_binary_gib :
    bytesToGB 1073741824 = 1 ∧
    (dsToInfo ⟨"ds-1", "A", 1073741824, 1073741824⟩).capacity_gb = 1 ∧
    (dsToInfo ⟨"ds-1", "A", 1073741824, 1073741824⟩).free_space_gb = 1 ∧
    (1073741824 : ℚ) / (1000 * 1000 * 1000) ≠ 1 := by
  refine ⟨?_, ?_, ?_, ?_⟩ <;> norm_num [bytesToGB, dsToInfo]

theorem count_filterMap_lookup (dss : List moDatastore) (d : moDatastore)
    (hnd : (dss.map (·.refValue)).Nodup) (hd : d ∈ dss) (l : List String) :
    (l.filterMap (lookupDs dss)).count d = l.count d.refValue := by
  induction l with
  | nil => rfl
  | cons r rs ih =>
      by_cases h : r = d.refValue
      · subst h
        rw [List.filterMap_cons, lookupDs_self dss d hnd hd]
        simp [List.count_cons, ih]
      · rw [List.filterMap_cons]
        cases hl : lookupDs dss r with
        | none => simp [List.count_cons, ih, h]
        | some d' =>
            have hne : d' ≠ d := by
              intro he
              subst he
              exact h ((lookupDs_some dss r d' hl).2).symm
            simp [List.count_cons, ih, hne, h]

theorem count_groupedSources (dss : List moDatastore) (pods : List StoragePod)
    (d : moDatastore) (hnd : (dss.map (·.refValue)).Nodup) (hd : d ∈ dss) :
    (groupedSources dss pods).count d =
      ((pods.map (·.childEntity)).flatten).count d.refValue := by
  unfold groupedSources
  rw [List.count_flatten, List.count_flatten, List.map_map, List.map_map]
  congr 1
  apply List.map_congr_left
  intro pod _
  exact count_filterMap_lookup dss d hnd hd pod.childEntity

theorem belongs_iff_count_pos (pods : List StoragePod) (r : String) :
    belongsToStoragePod pods r = true ↔
      0 < ((pods.map (·.childEntity)).flatten).count r := by
  rw [List.count_pos_iff, List.mem_flatten, belongs_iff]
  constructor
  · rintro ⟨pod, hpod, hr⟩
    exact ⟨pod.childEntity, List.mem_map_of_mem _ hpod, hr⟩
  · rintro ⟨l, hl, hr⟩
    obtain ⟨pod, hpod, rfl⟩ := List.mem_map.mp hl
    exact ⟨pod, hpod, hr⟩

/-- C2 counterexample: the code keeps no claimed-set, so a datastore whose
reference sits in two different pods' member lists is emitted under BOTH
groups, not only the first-discovered one — refuting "never under two
groups". Here datastore "ds1" (reference "r") is listed under both "G1"
and "G2", and not as standalone. -/
theorem c2_counterexample :
    datastoreClusters [⟨"r", "ds1", 1073741824, 536870912⟩]
        [⟨"G1", ["r"]⟩, ⟨"G2", ["r"]⟩] =
      [⟨"G1", [dsToInfo ⟨"r", "ds1", 1073741824, 536870912⟩]⟩,
       ⟨"G2", [dsToInfo ⟨"r", "ds1", 1073741824, 536870912⟩]⟩] ∧
    standaloneDatastores [⟨"G1", ["r"]⟩, ⟨"G2", ["r"]⟩]
        [⟨"r", "ds1", 1073741824, 536870912⟩] = [] := by
  constructor <;> rfl

/-- C2 amended: each reachable datastore is emitted under the pod buckets once
per occurrence of its reference across all pods' member lists (so a reference
found in two groups is listed under both, not attributed to the first only),
and standalone exactly when no member list contains it. Consequently, when a
reference occurs at most once across all member lists, the datastore is listed
exactly once: under the single group containing it, or standalone. -/
theorem c2_amended (pods : List StoragePod) (dss : List moDatastore)
    (hnd : (dss.map (·.refValue)).Nodup) (d : moDatastore) (hd : d ∈ dss)
    (honce : ((pods.map (·.childEntity)).flatten).count d.refValue ≤ 1) :
    (belongsToStoragePod pods d.refValue = true →
      (groupedSources dss pods).count d = 1 ∧
      (standaloneSources pods dss).count d = 0) ∧
    (belongsToStoragePod pods d.refValue = false →
      (groupedSources dss pods).count d = 0 ∧
      (standaloneSources pods dss).count d = 1) := by
  have hkey := count_groupedSources dss pods d hnd hd
  have hdss : dss.Nodup := List.Nodup.of_map _ hnd
  constructor
  · intro hb
    have hpos := (belongs_iff_count_pos pods d.refValue).mp hb
    constructor
    · rw [hkey]
      omega
    · unfold standaloneSources
      rw [List.count_eq_zero]
      intro hmem
      have := (List.mem_filter.mp hmem).2
      simp [hb] at this
  · intro hb
    constructor
    · rw [hkey, List.count_eq_zero]
      intro hmem
      have : belongsToStoragePod pods d.refValue = true :=
        (belongs_iff_count_pos pods d.refValue).mpr (List.count_pos_iff.mpr hmem)
      rw [hb] at this
      exact Bool.false_ne_true this
    · unfold standaloneSources
      rw [List.count_filter (by simp [hb])]
      exact List.count_eq_one_of_mem hdss hd

theorem c2_amended_witness :
    (groupedSources [⟨"r1", "A", 2048, 1024⟩] [⟨"G1", ["r1"]⟩]).count
        ⟨"r1", "A", 2048, 1024⟩ = 1 ∧
    (standaloneSources [⟨"G1", ["r1"]⟩] [⟨"r1", "A", 2048, 1024⟩]).count
        ⟨"r1", "A", 2048, 1024⟩ = 0 :=
  (c2_amended [⟨"G1", ["r1"]⟩] [⟨"r1", "A", 2048, 1024⟩] (by decide)
    ⟨"r1", "A", 2048, 1024⟩ (by decide) (by decide)).1 (by decide)

/-- One stdout item. Plain text lines are kept verbatim; a datastore detail
line keeps its two `%.2f`-formatted numbers symbolic (`dsEntry`); the final
JSON document is kept as its value (`jsonDoc`). -/
inductive OutItem where
  | line (s : String)
  | dsEntry (name : String) (capacity_gb free_space_gb : ℚ)
  | jsonDoc (doc : InfrastructureInfo)
deriving DecidableEq, Repr

/-- A child of a datastore folder as scanned at main.go:175-185: either a
storage pod whose property retrieval succeeds or fails, or another entity. -/
inductive FolderChild where
  | storagePod (retrieved : Except String StoragePod)
  | other

/-- A datastore folder: the outcome of its `Children` call (main.go:170). -/
structure FolderEnv where
  children : Except String (List FolderChild)

/-- The folder-discovery fallback chain of main.go:151-166: try the relative
pattern `*/datastores`, then the relative pattern `*/datastore`, then the
direct inventory path `<dcPath>/datastore`; the first call that does not
error supplies the folder list. -/
def listDatastoreFolders (folderList : String → Except String (List FolderEnv))
    (dcPath : String) : Except String (List FolderEnv) :=
  match folderList "*/datastores" with
  | .ok fs => .ok fs
  | .error _ =>
    match folderList "*/datastore" with
    | .ok fs => .ok fs
    | .error _ => folderList (dcPath ++ "/datastore")

/-- The storage-pod enumeration of main.go:168-186: every folder's children
are scanned; a folder whose child listing fails is skipped, a child that is
not a storage pod is skipped, a pod whose property retrieval fails is
skipped. -/
def gatherPods (folders : List FolderEnv) : List StoragePod :=
  folders.flatMap (fun f =>
    match f.children with
    | .error _ => []
    | .ok cs => cs.filterMap (fun c =>
        match c with
        | .storagePod (.ok pod) => some pod
        | .storagePod (.error _) => none
        | .other => none))

/-- The text block printed for one pod (main.go:230-261): the group header,
one line per member found in the cluster's datastore map, and the
no-datastores note when none matched. -/
def podTextBlock (dss : List moDatastore) (pod : StoragePod) : List OutItem :=
  OutItem.line ("  Datastore Cluster: " ++ pod.name) ::
    pod.childEntity.filterMap (fun r => (lookupDs dss r).map (fun ds =>
      OutItem.dsEntry ds.name (bytesToGB ds.capacity) (bytesToGB ds.freeSpace))) ++
    (if pod.childEntity.any (fun r => (lookupDs dss r).isSome) then []
     else [OutItem.line "    No datastores from this cluster in this datastore cluster"])

/-- The pod section of the text report (main.go:219-267). -/
def podSection (dss : List moDatastore) (pods : List StoragePod) : List OutItem :=
  if pods.isEmpty then [OutItem.line "  No datastore clusters found for this cluster"]
  else (pods.map (podTextBlock dss)).flatten

/-- The standalone section of the text report (main.go:270-310). -/
def standaloneSection (pods : List StoragePod) (dss : List moDatastore) :
    List OutItem :=
  OutItem.line "  Standalone Datastores:" ::
    (standaloneSources pods dss).map (fun ds =>
      OutItem.dsEntry ds.name (bytesToGB ds.capacity) (bytesToGB ds.freeSpace)) ++
    (if (standaloneSources pods dss).isEmpty then
       [OutItem.line "    No standalone datastores found"] else [])

/-- Per-cluster snapshot of the inventory calls issued inside the cluster
loop: the folder lookups by pattern (main.go:152-158), the cluster property
retrieval (main.go:190) yielding the reachable datastore references, and the
datastore property retrieval (main.go:206) yielding the summaries. -/
structure ClusterEnv where
  name : String
  folderList : String → Except String (List FolderEnv)
  clusterDetail : Except String (List String)
  dsRetrieve : Except String (List moDatastore)

/-- One iteration of the cluster loop (main.go:133-315): the text items
printed for this cluster, and in JSON mode the `ClusterInfo` appended to the
document — `none` when a per-cluster failure hit `continue` before the append
at main.go:313. -/
def processCluster (outputJSON : Bool) (dcPath : String) (c : ClusterEnv) :
    List OutItem × Option ClusterInfo :=
  let header : List OutItem :=
    if outputJSON then []
    else [OutItem.line "", OutItem.line ("Cluster: " ++ c.name),
          OutItem.line (String.mk (List.replicate (c.name.length + 9) '-'))]
  match listDatastoreFolders c.folderList dcPath with
  | .error e =>
      (header ++ (if outputJSON then []
        else [OutItem.line ("  Error finding datastore folders: " ++ e)]), none)
  | .ok folders =>
    let pods := gatherPods folders
    match c.clusterDetail with
    | .error e =>
        (header ++ (if outputJSON then []
          else [OutItem.line ("  Error getting cluster details: " ++ e)]), none)
    | .ok _ =>
      match c.dsRetrieve with
      | .error e =>
          (header ++ (if outputJSON then []
            else [OutItem.line ("  Error retrieving datastore details: " ++ e)]), none)
      | .ok dss =>
        if outputJSON then
          ([], some ⟨c.name, datastoreClusters dss pods, standaloneDatastores pods dss⟩)
        else
          (header ++ podSection dss pods ++ standaloneSection pods dss, none)

/-- The resolved datacenter: its display name and inventory path. -/
structure DcEnv where
  name : String
  inventoryPath : String

/-- Snapshot of everything `main` consults: the merged flag/environment
configuration (main.go:329-348) and the outcome of each top-level SDK call:
connection (main.go:66), datacenter resolution (main.go:79-83), the
datacenter listing used on resolution failure (main.go:87), and the cluster
listing (main.go:114) with each cluster's own per-cluster call outcomes. -/
structure MainEnv where
  url : String
  username : String
  password : String
  outputJSON : Bool
  connect : Except String Unit
  datacenter : Except String DcEnv
  datacenterList : Except String (List String)
  clusterList : Except String (List ClusterEnv)

/-- Process outcome: exit code plus the stdout stream. -/
structure RunResult where
  exitCode : Nat
  output : List OutItem
deriving Repr

/-- The body of `main` plus the `parseFlags` credential check
(main.go:59-326, 341-346) over a snapshot. -/
def mainRun (env : MainEnv) : RunResult :=
  if env.url = "" ∨ env.username = "" ∨ env.password = "" then
    ⟨1, [OutItem.line "Must specify vSphere URL, username, and password",
         OutItem.line "Usage:"]⟩
  else
    match env.connect with
    | .error e => ⟨1, [OutItem.line ("Error connecting to vSphere: " ++ e)]⟩
    | .ok _ =>
      match env.datacenter with
      | .error _ =>
        match env.datacenterList with
        | .error e => ⟨1, [OutItem.line ("Error: " ++ e)]⟩
        | .ok [] =>
            ⟨1, [OutItem.line
              "No datacenters found. Please check your vSphere environment."]⟩
        | .ok dcs =>
            ⟨1, OutItem.line "Available datacenters:" ::
                dcs.map (fun n => OutItem.line ("- " ++ n)) ++
                [OutItem.line "",
                 OutItem.line "Please specify a datacenter using the -datacenter flag."]⟩
      | .ok dc =>
        let header : List OutItem :=
          if env.outputJSON then []
          else [OutItem.line ("Using datacenter: " ++ dc.name)]
        match env.clusterList with
        | .error e => ⟨1, header ++ [OutItem.line ("Error getting clusters: " ++ e)]⟩
        | .ok [] =>
            ⟨0, header ++ [OutItem.line "No clusters found in the selected datacenter."]⟩
        | .ok cs =>
          let results := cs.map (processCluster env.outputJSON dc.inventoryPath)
          let items := (results.map Prod.fst).flatten
          if env.outputJSON then
            ⟨0, header ++ items ++
                [OutItem.jsonDoc ⟨dc.name, results.filterMap Prod.snd⟩]⟩
          else ⟨0, header ++ items⟩

/-- C4: for a storage-pool group none of whose members is reachable by the
cluster, the group is omitted from structured output entirely (deleting it
from the pod list leaves `datastoreClusters` unchanged, and every surviving
structured entry has a non-empty bucket), while the text report still prints
the group header immediately followed by the no-datastores note. -/
theorem c4_empty_group (dss : List moDatastore) (pod : StoragePod)
    (h : pod.childEntity.all (fun r => (lookupDs dss r).isNone) = true) :
    (∀ pods₁ pods₂ : List StoragePod,
      datastoreClusters dss (pods₁ ++ pod :: pods₂) =
        datastoreClusters dss (pods₁ ++ pods₂)) ∧
    (∀ pods : List StoragePod, ∀ g ∈ datastoreClusters dss pods,
      g.datastores ≠ []) ∧
    podTextBlock dss pod =
      [OutItem.line ("  Datastore Cluster: " ++ pod.name),
       OutItem.line "    No datastores from this cluster in this datastore cluster"] := by
  have hnone : ∀ r ∈ pod.childEntity, lookupDs dss r = none := by
    intro r hr
    have := List.all_eq_true.mp h r hr
    exact Option.isNone_iff_eq_none.mp this
  have hempty : podBucket dss pod = [] := by
    rw [podBucket, List.filterMap_eq_nil_iff]
    intro r hr
    rw [hnone r hr]
    rfl
  refine ⟨?_, ?_, ?_⟩
  · intro pods₁ pods₂
    unfold datastoreClusters
    rw [List.filterMap_append, List.filterMap_append, List.filterMap_cons]
    simp [hempty]
  · intro pods g hg
    unfold datastoreClusters at hg
    obtain ⟨p, _, hp⟩ := List.mem_filterMap.mp hg
    simp only at hp
    by_cases hb : (podBucket dss p).length > 0
    · rw [if_pos hb] at hp
      cases hp
      intro hcon
      have hzz : podBucket dss p = [] := hcon
      rw [hzz] at hb
      simp at hb
    · rw [if_neg hb] at hp
      exact absurd hp (by simp)
  · unfold podTextBlock
    have h1 : pod.childEntity.filterMap (fun r => (lookupDs dss r).map (fun ds =>
        OutItem.dsEntry ds.name (bytesToGB ds.capacity) (bytesToGB ds.freeSpace))) = [] := by
      rw [List.filterMap_eq_nil_iff]
      intro r hr
      rw [hnone r hr]
      rfl
    have h2 : pod.childEntity.any (fun r => (lookupDs dss r).isSome) = false := by
      rw [List.any_eq_false]
      intro r hr
      rw [hnone r hr]
      simp
    rw [h1, h2]
    simp

theorem c4_empty_group_witness :
    datastoreClusters [⟨"r1", "A", 2048, 1024⟩]
        ([] ++ ⟨"G1", ["rX"]⟩ :: [⟨"G2", ["r1"]⟩]) =
      datastoreClusters [⟨"r1", "A", 2048, 1024⟩] ([] ++ [⟨"G2", ["r1"]⟩]) ∧
    podTextBlock [⟨"r1", "A", 2048, 1024⟩] ⟨"G1", ["rX"]⟩ =
      [OutItem.line "  Datastore Cluster: G1",
       OutItem.line "    No datastores from this cluster in this datastore cluster"] :=
  ⟨(c4_empty_group [⟨"r1", "A", 2048, 1024⟩] ⟨"G1", ["rX"]⟩ (by decide)).1
      [] [⟨"G2", ["r1"]⟩],
   (c4_empty_group [⟨"r1", "A", 2048, 1024⟩] ⟨"G1", ["rX"]⟩ (by decide)).2.2⟩

/-- Whether one of this cluster's inventory calls failed, hitting a
`continue` (main.go:163, 195, 211). -/
def clusterDegraded (dcPath : String) (c : ClusterEnv) : Bool :=
  match listDatastoreFolders c.folderList dcPath with
  | .error _ => true
  | .ok _ =>
    match c.clusterDetail with
    | .error _ => true
    | .ok _ =>
      match c.dsRetrieve with
      | .error _ => true
      | .ok _ => false

/-- The JSON documents present in a stdout stream. -/
def jsonDocs (r : RunResult) : List InfrastructureInfo :=
  r.output.filterMap (fun i =>
    match i with
    | .jsonDoc d => some d
    | _ => none)

theorem processCluster_json_fst (dcPath : String) (c : ClusterEnv) :
    (processCluster true dcPath c).1 = [] := by
  unfold processCluster
  cases h1 : listDatastoreFolders c.folderList dcPath with
  | error e => simp
  | ok folders =>
    cases h2 : c.clusterDetail with
    | error e => simp
    | ok refs =>
      cases h3 : c.dsRetrieve with
      | error e => simp
      | ok dss => simp

theorem processCluster_degraded (dcPath : String) (c : ClusterEnv)
    (h : clusterDegraded dcPath c = true) :
    (processCluster true dcPath c).2 = none := by
  unfold clusterDegraded at h
  unfold processCluster
  cases h1 : listDatastoreFolders c.folderList dcPath with
  | error e => simp
  | ok folders =>
    rw [h1] at h
    cases h2 : c.clusterDetail with
    | error e => simp
    | ok refs =>
      rw [h2] at h
      cases h3 : c.dsRetrieve with
      | error e => simp
      | ok dss =>
        rw [h3] at h
        exact absurd h (by simp)

theorem flatten_map_nil {α β : Type} (l : List α) :
    (l.map (fun _ => ([] : List β))).flatten = [] := by
  induction l <;> simp [*]

/-- A JSON-mode snapshot with one cluster, "Bad", whose cluster property
retrieval fails. -/
def envC3 : MainEnv where
  url := "https://vc.example/sdk"
  username := "u"
  password := "p"
  outputJSON := true
  connect := .ok ()
  datacenter := .ok ⟨"DC01", "/DC01"⟩
  datacenterList := .ok ["DC01"]
  clusterList := .ok [{ name := "Bad", folderList := fun _ => .ok [],
                        clusterDetail := .error "boom", dsRetrieve := .ok [] }]

/-- C3 counterexample: in JSON mode, a cluster whose property retrieval
fails is dropped from the structured document altogether — the document's
cluster list is empty rather than containing a "Bad" entry with empty
collections, refuting "appears as present with empty collections". The run
does still exit 0. -/
theorem c3_counterexample :
    (mainRun envC3).exitCode = 0 ∧
    jsonDocs (mainRun envC3) = [⟨"DC01", []⟩] := by
  decide

theorem map_fst_pc_flatten (p : String) (cs : List ClusterEnv) :
    ((cs.map (processCluster true p)).map Prod.fst).flatten = [] := by
  induction cs with
  | nil => rfl
  | cons c rest ih => simp [processCluster_json_fst, ih]

theorem filterMap_snd_pc (p : String) (cs : List ClusterEnv) :
    (cs.map (processCluster true p)).filterMap Prod.snd =
      cs.filterMap (fun c => (processCluster true p c).2) := by
  induction cs with
  | nil => rfl
  | cons c rest ih =>
      simp only [List.map_cons, List.filterMap_cons]
      cases h : (processCluster true p c).2 <;> simp [h, ih]

/-- In JSON mode, a run that gets past the cluster listing with a non-empty
cluster list emits exactly one item: the JSON document collecting the
non-degraded clusters' reports. -/
theorem mainRun_json_output (env : MainEnv) (dc : DcEnv) (c0 : ClusterEnv)
    (cs' : List ClusterEnv)
    (hu : ¬(env.url = "" ∨ env.username = "" ∨ env.password = ""))
    (hc : env.connect = .ok ())
    (hd : env.datacenter = .ok dc)
    (hcl : env.clusterList = .ok (c0 :: cs'))
    (hj : env.outputJSON = true) :
    mainRun env =
      ⟨0, [OutItem.jsonDoc ⟨dc.name,
        (c0 :: cs').filterMap (fun c => (processCluster true dc.inventoryPath c).2)⟩]⟩ := by
  unfold mainRun
  rw [if_neg hu, hc, hd, hcl, hj]
  simp only [List.map_cons, List.flatten_cons]
  have h1 := map_fst_pc_flatten dc.inventoryPath (c0 :: cs')
  have h2 := filterMap_snd_pc dc.inventoryPath (c0 :: cs')
  simp only [List.map_cons, List.flatten_cons] at h1 h2
  simp [h1, h2, processCluster_json_fst]

/-- C3 amended: when folder discovery or a property retrieval fails for a
specific cluster, the run continues (every cluster of the snapshot is still
processed into the document) and exits 0, and the degraded cluster is
omitted from structured output entirely — it contributes no entry, rather
than appearing with empty collections. -/
theorem c3_amended (env : MainEnv) (dc : DcEnv) (cs : List ClusterEnv)
    (hu : ¬(env.url = "" ∨ env.username = "" ∨ env.password = ""))
    (hc : env.connect = .ok ())
    (hd : env.datacenter = .ok dc)
    (hcl : env.clusterList = .ok cs)
    (hj : env.outputJSON = true) :
    (mainRun env).exitCode = 0 ∧
    (cs ≠ [] →
      (mainRun env).output =
        [OutItem.jsonDoc ⟨dc.name,
          cs.filterMap (fun c => (processCluster true dc.inventoryPath c).2)⟩]) ∧
    (∀ c ∈ cs, clusterDegraded dc.inventoryPath c = true →
      (processCluster true dc.inventoryPath c).2 = none) := by
  cases cs with
  | nil =>
      refine ⟨?_, ?_, ?_⟩
      · simp [mainRun, if_neg hu, hc, hd, hcl]
      · intro hne
        exact absurd rfl hne
      · intro c hmem
        exact absurd hmem (List.not_mem_nil c)
  | cons c0 cs' =>
      have hout := mainRun_json_output env dc c0 cs' hu hc hd hcl hj
      refine ⟨by rw [hout], fun _ => by rw [hout], ?_⟩
      intro c _ hdeg
      exact processCluster_degraded dc.inventoryPath c hdeg

theorem c3_amended_witness :
    (mainRun envC3).exitCode = 0 ∧
    (mainRun envC3).output = [OutItem.jsonDoc ⟨"DC01", []⟩] := by
  have h := c3_amended envC3 ⟨"DC01", "/DC01"⟩
    [{ name := "Bad", folderList := fun _ => .ok [],
       clusterDetail := .error "boom", dsRetrieve := .ok [] }]
    (by decide) rfl rfl rfl rfl
  refine ⟨h.1, ?_⟩
  have h2 := h.2.1 (by simp)
  rw [h2]
  decide

/-- C6: the process exits 0 on success — including the no-clusters
early-terminate — and exits non-zero when credentials are missing, the
connection fails, or no datacenter can be resolved (whatever the fallback
datacenter listing then returns). -/
theorem c6_exit_codes (env : MainEnv) :
    ((env.url = "" ∨ env.username = "" ∨ env.password = "") →
      (mainRun env).exitCode = 1) ∧
    (∀ e, ¬(env.url = "" ∨ env.username = "" ∨ env.password = "") →
      env.connect = .error e → (mainRun env).exitCode = 1) ∧
    (∀ e, ¬(env.url = "" ∨ env.username = "" ∨ env.password = "") →
      env.connect = .ok () → env.datacenter = .error e →
      (mainRun env).exitCode = 1) ∧
    (∀ dc cs, ¬(env.url = "" ∨ env.username = "" ∨ env.password = "") →
      env.connect = .ok () → env.datacenter = .ok dc →
      env.clusterList = .ok cs → (mainRun env).exitCode = 0) := by
  refine ⟨?_, ?_, ?_, ?_⟩
  · intro h
    simp [mainRun, if_pos h]
  · intro e hu hc
    simp [mainRun, if_neg hu, hc]
  · intro e hu hc hd
    unfold mainRun
    rw [if_neg hu, hc, hd]
    cases hdl : env.datacenterList with
    | error e2 => simp
    | ok dcs => cases dcs <;> simp
  · intro dc cs hu hc hd hcl
    unfold mainRun
    rw [if_neg hu, hc, hd, hcl]
    cases cs with
    | nil => simp
    | cons c0 cs' => cases hj : env.outputJSON <;> simp [hj]

/-- A well-configured text-mode snapshot whose datacenter holds no clusters. -/
def envNoClusters : MainEnv where
  url := "https://vc.example/sdk"
  username := "u"
  password := "p"
  outputJSON := false
  connect := .ok ()
  datacenter := .ok ⟨"DC01", "/DC01"⟩
  datacenterList := .ok ["DC01"]
  clusterList := .ok []

theorem c6_exit_codes_witness : (mainRun envNoClusters).exitCode = 0 :=
  (c6_exit_codes envNoClusters).2.2.2 ⟨"DC01", "/DC01"⟩ []
    (by decide) rfl rfl rfl

/-- C9: with zero clusters in the resolved datacenter, the run prints the
plain-text no-clusters line and exits 0 in both output modes, and no JSON
document is emitted at all. -/
theorem c9_no_clusters (env : MainEnv) (dc : DcEnv)
    (hu : ¬(env.url = "" ∨ env.username = "" ∨ env.password = ""))
    (hc : env.connect = .ok ())
    (hd : env.datacenter = .ok dc)
    (hcl : env.clusterList = .ok []) :
    (mainRun env).exitCode = 0 ∧
    OutItem.line "No clusters found in the selected datacenter."
      ∈ (mainRun env).output ∧
    ∀ d, OutItem.jsonDoc d ∉ (mainRun env).output := by
  have hout : mainRun env =
      ⟨0, (if env.outputJSON then []
           else [OutItem.line ("Using datacenter: " ++ dc.name)]) ++
          [OutItem.line "No clusters found in the selected datacenter."]⟩ := by
    unfold mainRun
    rw [if_neg hu, hc, hd, hcl]
  refine ⟨by rw [hout], ?_, ?_⟩
  · rw [hout]
    cases hj : env.outputJSON <;> simp
  · intro d
    rw [hout]
    cases hj : env.outputJSON <;> simp

theorem c9_no_clusters_witness :
    (mainRun envNoClusters).exitCode = 0 ∧
    OutItem.line "No clusters found in the selected datacenter."
      ∈ (mainRun envNoClusters).output := by
  have h := c9_no_clusters envNoClusters ⟨"DC01", "/DC01"⟩ (by decide) rfl rfl rfl
  exact ⟨h.1, h.2.1⟩

/-- C10: in JSON mode every informational and per-cluster message is
suppressed: a run that reaches the serialization step writes exactly the one
JSON document to stdout and nothing else. -/
theorem c10_json_only (env : MainEnv) (dc : DcEnv) (c0 : ClusterEnv)
    (cs' : List ClusterEnv)
    (hu : ¬(env.url = "" ∨ env.username = "" ∨ env.password = ""))
    (hc : env.connect = .ok ())
    (hd : env.datacenter = .ok dc)
    (hcl : env.clusterList = .ok (c0 :: cs'))
    (hj : env.outputJSON = true) :
    (mainRun env).output =
      [OutItem.jsonDoc ⟨dc.name,
        (c0 :: cs').filterMap (fun c => (processCluster true dc.inventoryPath c).2)⟩] := by
  rw [mainRun_json_output env dc c0 cs' hu hc hd hcl hj]

/-- A JSON-mode snapshot with a single cluster whose calls all succeed but
return nothing. -/
def envJson : MainEnv where
  url := "https://vc.example/sdk"
  username := "u"
  password := "p"
  outputJSON := true
  connect := .ok ()
  datacenter := .ok ⟨"DC01", "/DC01"⟩
  datacenterList := .ok ["DC01"]
  clusterList := .ok [{ name := "C1", folderList := fun _ => .ok [],
                        clusterDetail := .ok [], dsRetrieve := .ok [] }]

theorem c10_json_only_witness :
    (mainRun envJson).output =
      [OutItem.jsonDoc ⟨"DC01", [⟨"C1", [], []⟩]⟩] := by
  have h := c10_json_only envJson ⟨"DC01", "/DC01"⟩
    { name := "C1", folderList := fun _ => .ok [],
      clusterDetail := .ok [], dsRetrieve := .ok [] } []
    (by decide) rfl rfl rfl rfl
  rw [h]
  decide

/-- C7: folder discovery tries the relative patterns `*/datastores` and then
`*/datastore` before falling back to the direct inventory-path construction
`<dcPath>/datastore`; the first strategy that does not error supplies the
folder list used afterwards, and under the client's errors-on-empty-match
behaviour that list is non-empty. -/
theorem c7_folder_chain (fl : String → Except String (List FolderEnv))
    (dcPath : String)
    (hne : ∀ pat fs, fl pat = .ok fs → fs ≠ []) :
    (∀ fs, fl "*/datastores" = .ok fs →
      listDatastoreFolders fl dcPath = .ok fs ∧ fs ≠ []) ∧
    (∀ e fs, fl "*/datastores" = .error e → fl "*/datastore" = .ok fs →
      listDatastoreFolders fl dcPath = .ok fs ∧ fs ≠ []) ∧
    (∀ e e', fl "*/datastores" = .error e → fl "*/datastore" = .error e' →
      listDatastoreFolders fl dcPath = fl (dcPath ++ "/datastore")) := by
  refine ⟨?_, ?_, ?_⟩
  · intro fs h
    refine ⟨?_, hne _ _ h⟩
    unfold listDatastoreFolders
    rw [h]
  · intro e fs h1 h2
    refine ⟨?_, hne _ _ h2⟩
    unfold listDatastoreFolders
    rw [h1, h2]
  · intro e e' h1 h2
    unfold listDatastoreFolders
    rw [h1, h2]

/-- A folder-listing client for which the first relative pattern has no
match (errors) and every other pattern resolves to one folder. -/
def flW : String → Except String (List FolderEnv) := fun pat =>
  if pat = "*/datastores" then .error "folder not found"
  else .ok [⟨Except.ok []⟩]

theorem c7_folder_chain_witness :
    listDatastoreFolders flW "/DC01" = .ok [⟨Except.ok []⟩] ∧
    ([⟨Except.ok []⟩] : List FolderEnv) ≠ [] := by
  have hne : ∀ pat fs, flW pat = .ok fs → fs ≠ [] := by
    intro pat fs h
    unfold flW at h
    by_cases hp : pat = "*/datastores"
    · rw [if_pos hp] at h
      exact absurd h (by simp)
    · rw [if_neg hp] at h
      cases h
      simp
  exact (c7_folder_chain flW "/DC01" hne).2.1 "folder not found" [⟨Except.ok []⟩]
    (by unfold flW; rw [if_pos rfl]) (by unfold flW; rw [if_neg (by decide)])

theorem jsonDoc_not_mem_podTextBlock (dss : List moDatastore) (pod : StoragePod)
    (d : InfrastructureInfo) :
    OutItem.jsonDoc d ∉ podTextBlock dss pod := by
  unfold podTextBlock
  intro h
  rcases List.mem_cons.mp h with h' | h'
  · exact absurd h' (by simp)
  rcases List.mem_append.mp h' with h'' | h''
  · obtain ⟨r, _, hr⟩ := List.mem_filterMap.mp h''
    cases hl : lookupDs dss r <;> rw [hl] at hr <;> simp at hr
  · by_cases hb : pod.childEntity.any (fun r => (lookupDs dss r).isSome) = true
    · rw [if_pos hb] at h''
      exact absurd h'' (List.not_mem_nil _)
    · rw [if_neg hb] at h''
      exact absurd h'' (by simp)

theorem jsonDoc_not_mem_podSection (dss : List moDatastore)
    (pods : List StoragePod) (d : InfrastructureInfo) :
    OutItem.jsonDoc d ∉ podSection dss pods := by
  unfold podSection
  intro h
  by_cases he : pods.isEmpty = true
  · rw [if_pos he] at h
    exact absurd h (by simp)
  · rw [if_neg he] at h
    obtain ⟨l, hl, hmem⟩ := List.mem_flatten.mp h
    obtain ⟨pod, _, rfl⟩ := List.mem_map.mp hl
    exact jsonDoc_not_mem_podTextBlock dss pod d hmem

theorem jsonDoc_not_mem_standaloneSection (pods : List StoragePod)
    (dss : List moDatastore) (d : InfrastructureInfo) :
    OutItem.jsonDoc d ∉ standaloneSection pods dss := by
  unfold standaloneSection
  intro h
  rcases List.mem_cons.mp h with h' | h'
  · exact absurd h' (by simp)
  rcases List.mem_append.mp h' with h'' | h''
  · obtain ⟨ds, _, hds⟩ := List.mem_map.mp h''
    exact absurd hds (by simp)
  · by_cases he : (standaloneSources pods dss).isEmpty = true
    · rw [if_pos he] at h''
      exact absurd h'' (by simp)
    · rw [if_neg he] at h''
      exact absurd h'' (List.not_mem_nil _)

/-- No per-cluster text item is ever a JSON document, in either mode. -/
theorem jsonDoc_not_mem_processCluster (mode : Bool) (p : String)
    (c : ClusterEnv) (d : InfrastructureInfo) :
    OutItem.jsonDoc d ∉ (processCluster mode p c).1 := by
  unfold processCluster
  cases h1 : listDatastoreFolders c.folderList p with
  | error e => cases mode <;> simp
  | ok folders =>
    cases h2 : c.clusterDetail with
    | error e => cases mode <;> simp
    | ok refs =>
      cases h3 : c.dsRetrieve with
      | error e => cases mode <;> simp
      | ok dss =>
        cases mode with
        | true => simp
        | false =>
            simp only [Bool.false_eq_true, if_false]
            intro h
            rcases List.mem_append.mp h with h' | h'
            · rcases List.mem_append.mp h' with h'' | h''
              · exact absurd h'' (by simp)
              · exact jsonDoc_not_mem_podSection dss (gatherPods folders) d h''
            · exact jsonDoc_not_mem_standaloneSection (gatherPods folders) dss d h'

/-- A run emits at most one JSON document: any two documents found in the
stdout stream of the same run are equal. -/
theorem mainRun_jsonDoc_unique (env : MainEnv) (d₁ d₂ : InfrastructureInfo)
    (h₁ : OutItem.jsonDoc d₁ ∈ (mainRun env).output)
    (h₂ : OutItem.jsonDoc d₂ ∈ (mainRun env).output) : d₁ = d₂ := by
  by_cases hu : env.url = "" ∨ env.username = "" ∨ env.password = ""
  · have hrun : mainRun env =
        ⟨1, [OutItem.line "Must specify vSphere URL, username, and password",
             OutItem.line "Usage:"]⟩ := by
      unfold mainRun
      rw [if_pos hu]
    rw [hrun] at h₁
    exact absurd h₁ (by simp)
  · cases hc : env.connect with
    | error e =>
        have hrun : mainRun env =
            ⟨1, [OutItem.line ("Error connecting to vSphere: " ++ e)]⟩ := by
          unfold mainRun
          rw [if_neg hu, hc]
        rw [hrun] at h₁
        exact absurd h₁ (by simp)
    | ok u =>
      cases u
      cases hd : env.datacenter with
      | error e =>
          cases hdl : env.datacenterList with
          | error e2 =>
              have hrun : mainRun env = ⟨1, [OutItem.line ("Error: " ++ e2)]⟩ := by
                unfold mainRun
                rw [if_neg hu, hc, hd, hdl]
              rw [hrun] at h₁
              exact absurd h₁ (by simp)
          | ok dcs =>
              cases dcs with
              | nil =>
                  have hrun : mainRun env =
                      ⟨1, [OutItem.line
                        "No datacenters found. Please check your vSphere environment."]⟩ := by
                    unfold mainRun
                    rw [if_neg hu, hc, hd, hdl]
                  rw [hrun] at h₁
                  exact absurd h₁ (by simp)
              | cons n ns =>
                  have hrun : mainRun env =
                      ⟨1, OutItem.line "Available datacenters:" ::
                          (n :: ns).map (fun m => OutItem.line ("- " ++ m)) ++
                          [OutItem.line "",
                           OutItem.line "Please specify a datacenter using the -datacenter flag."]⟩ := by
                    unfold mainRun
                    rw [if_neg hu, hc, hd, hdl]
                  rw [hrun] at h₁
                  exact absurd h₁ (by simp)
      | ok dc =>
        cases hcl : env.clusterList with
        | error e =>
            have hrun : mainRun env =
                ⟨1, (if env.outputJSON then []
                     else [OutItem.line ("Using datacenter: " ++ dc.name)]) ++
                    [OutItem.line ("Error getting clusters: " ++ e)]⟩ := by
              unfold mainRun
              rw [if_neg hu, hc, hd, hcl]
            rw [hrun] at h₁
            cases hj : env.outputJSON <;> rw [hj] at h₁ <;> exact absurd h₁ (by simp)
        | ok cs =>
          cases cs with
          | nil =>
              have hrun : mainRun env =
                  ⟨0, (if env.outputJSON then []
                       else [OutItem.line ("Using datacenter: " ++ dc.name)]) ++
                      [OutItem.line "No clusters found in the selected datacenter."]⟩ := by
                unfold mainRun
                rw [if_neg hu, hc, hd, hcl]
              rw [hrun] at h₁
              cases hj : env.outputJSON <;> rw [hj] at h₁ <;> exact absurd h₁ (by simp)
          | cons c0 cs' =>
              cases hj : env.outputJSON with
              | true =>
                  have hrun := mainRun_json_output env dc c0 cs' hu hc hd hcl hj
                  rw [hrun] at h₁ h₂
                  simp only [List.mem_singleton, OutItem.jsonDoc.injEq] at h₁ h₂
                  rw [h₁, h₂]
              | false =>
                  have hrun : mainRun env =
                      ⟨0, [OutItem.line ("Using datacenter: " ++ dc.name)] ++
                          (((c0 :: cs').map (processCluster false dc.inventoryPath)).map
                            Prod.fst).flatten⟩ := by
                    unfold mainRun
                    rw [if_neg hu, hc, hd, hcl, hj]
                    rfl
                  rw [hrun] at h₁
                  rcases List.mem_append.mp h₁ with h | h
                  · exact absurd h (by simp)
                  · obtain ⟨l, hl, hmem⟩ := List.mem_flatten.mp h
                    obtain ⟨pr, hpr, rfl⟩ := List.mem_map.mp hl
                    obtain ⟨c, _, rfl⟩ := List.mem_map.mp hpr
                    exact absurd hmem
                      (jsonDoc_not_mem_processCluster false dc.inventoryPath c d₁)

/-- Deterministic decimal-free rendering of a rational, standing in for the
serializer's numeric formatting. -/
def ratStr (q : ℚ) : String := toString q.num ++ "/" ++ toString q.den

/-- A JSON string literal. -/
def jstr (s : String) : String := "\"" ++ s ++ "\""

/-- A JSON array from an element serializer. -/
def jarr {α : Type} (f : α → String) (l : List α) : String :=
  "[" ++ String.intercalate ", " (l.map f) ++ "]"

/-- Serialization of one datastore summary, field order as declared. -/
def serializeDs (d : DatastoreInfo) : String :=
  "\x7b" ++ jstr "name" ++ ": " ++ jstr d.name ++ ", " ++
    jstr "capacity_gb" ++ ": " ++ ratStr d.capacity_gb ++ ", " ++
    jstr "free_space_gb" ++ ": " ++ ratStr d.free_space_gb ++ "\x7d"

/-- Serialization of one datastore-cluster entry. -/
def serializeDsc (g : DatastoreClusterInfo) : String :=
  "\x7b" ++ jstr "name" ++ ": " ++ jstr g.name ++ ", " ++
    jstr "datastores" ++ ": " ++ jarr serializeDs g.datastores ++ "\x7d"

/-- Serialization of one cluster report. -/
def serializeCluster (c : ClusterInfo) : String :=
  "\x7b" ++ jstr "name" ++ ": " ++ jstr c.name ++ ", " ++
    jstr "datastore_clusters" ++ ": " ++
    jarr serializeDsc c.datastoreClusters ++ ", " ++
    jstr "standalone_datastores" ++ ": " ++
    jarr serializeDs c.standaloneDatastores ++ "\x7d"

/-- The structured document rendering (`json.MarshalIndent` at main.go:319,
modelled as a fixed deterministic serializer with Go's declaration-ordered
fields). -/
def serialize (i : InfrastructureInfo) : String :=
  "\x7b" ++ jstr "datacenter" ++ ": " ++ jstr i.datacenter ++ ", " ++
    jstr "clusters" ++ ": " ++ jarr serializeCluster i.clusters ++ "\x7d"

/-- C8: the pipeline is deterministic. `mainRun` is a pure function of the
inventory snapshot — the embedding has no other input, and the original's
only potential nondeterminism source, Go map iteration order, is never used
(the datastore map is only read by key) — so two runs over an identical
snapshot produce the same stdout stream. This theorem covers the remaining
content of byte-identical structured output: any two structured documents
observed from runs over the same snapshot are the same document and
serialize to identical bytes. -/
theorem c8_deterministic (env : MainEnv) (d₁ d₂ : InfrastructureInfo)
    (h₁ : OutItem.jsonDoc d₁ ∈ (mainRun env).output)
    (h₂ : OutItem.jsonDoc d₂ ∈ (mainRun env).output) :
    serialize d₁ = serialize d₂ := by
  rw [mainRun_jsonDoc_unique env d₁ d₂ h₁ h₂]

theorem c8_deterministic_witness :
    serialize ⟨"DC01", [⟨"C1", [], []⟩]⟩ = serialize ⟨"DC01", [⟨"C1", [], []⟩]⟩ := by
  have hmem : OutItem.jsonDoc ⟨"DC01", [⟨"C1", [], []⟩]⟩ ∈ (mainRun envJson).output := by
    decide
  exact c8_deterministic envJson _ _ hmem hmem

end GodcInfo
